import Mathlib

/-!
Verification development for the IMJM chat delivery pipeline.

Shallow embedding of:
- `AdminFileUploadService` (uploadImage / uploadMultipleImages),
- `NCPObjectStorageService.deleteFolder`,
- `WebSocketService` (initialize / disconnect / sendMessage /
  sendMessageWithPhotos / addListener / removeListener / notifyListeners).

Stateful and effectful parts are embedded as explicit state passing: the
outcome records of the send and upload operations carry the list of error
events dispatched to listeners, whether a network publish / POST happened,
and the success-or-thrown result of the call.
-/

deriving instance DecidableEq for Except

namespace IMJM

/-! ## Attachment Upload Adapter (AdminFileUploadService) -/

/-- `MAX_FILE_SIZE = 10 * 1024 * 1024` from AdminFileUploadService. -/
def MAX_FILE_SIZE : Nat := 10 * 1024 * 1024

/-- A client-side file: its name and byte size (the only fields the
adapter reads). -/
structure FileSpec where
  name : String
  size : Nat
deriving DecidableEq

/-- The `UploadResult` interface: public URL plus the original
fileName/fileSize. -/
structure UploadResult where
  fileUrl : String
  fileName : String
  fileSize : Nat
deriving DecidableEq

/-- Classified upload failures: the size-ceiling rejection, or a failure
of the backend POST (rethrown by the catch block). -/
inductive UploadError
  | fileTooLarge
  | backendFailure
deriving DecidableEq

/-- Observable outcome of one `uploadImage` call: whether the multipart
POST to the backend was issued, the classified error events dispatched to
registered listeners during the call, and the returned/thrown result.
`AdminFileUploadService` has no listener facility and never notifies one,
so `events` is constantly `[]` in the embedding of its code. -/
structure UploadOutcome where
  posted : Bool
  events : List UploadError
  result : Except UploadError UploadResult
deriving DecidableEq

/-- Embeds `uploadImage(file, chatRoomId)`. The backend POST is abstracted
as its observable response `backend : Except Unit String` (the `fileUrl`
field of the JSON body on success). The size guard `file.size >
MAX_FILE_SIZE` throws before any POST; the catch block logs and rethrows,
adding nothing observable. -/
def uploadImage (file : FileSpec) (backend : Except Unit String) : UploadOutcome :=
  if file.size > MAX_FILE_SIZE then
    { posted := false, events := [], result := .error .fileTooLarge }
  else
    match backend with
    | .ok fileUrl =>
        { posted := true, events := [],
          result := .ok ⟨fileUrl, file.name, file.size⟩ }
    | .error _ =>
        { posted := true, events := [], result := .error .backendFailure }

/-- Embeds `uploadMultipleImages(files, chatRoomId)`: one `uploadImage`
per file combined with `Promise.all` — if every per-file result is a
success the fulfilled array keeps the input order, otherwise the whole
call rejects (`none`). `backend` gives each file's POST response. -/
def uploadMultipleImages (files : List FileSpec)
    (backend : FileSpec → Except Unit String) : Option (List UploadResult) :=
  let rs := files.map fun f => (uploadImage f (backend f)).result
  if rs.all fun r => r.toOption.isSome then
    some (rs.filterMap Except.toOption)
  else
    none

/-! ## Storage Backend (NCPObjectStorageService.deleteFolder) -/

/-- Key `k` lies under the namespace `pre`: `pre` is a string prefix of
`k` (expressed on the underlying character sequences). -/
def keyUnder (pre k : String) : Bool :=
  pre.data.isPrefixOf k.data

/-- Embeds `deleteFolder(prefix)` over a bucket modelled as the list of
its keys. It lists the keys under the given key namespace
(`listObjects(bucketName, pre)` returns exactly the keys starting with
`pre`), and only when that listing is non-empty issues one
`deleteObjects` batch request carrying those keys. Returns the batch
request issued (`none` when no batch call was made) and the resulting
bucket contents. -/
def deleteFolder (store : List String) (pre : String) :
    Option (List String) × List String :=
  let keys := store.filter fun k => keyUnder pre k
  if keys.isEmpty then
    (none, store)
  else
    (some keys, store.filter fun k => !keyUnder pre k)

/-! ## Send Pipeline (WebSocketService.sendMessage / sendMessageWithPhotos) -/

/-- Modelled from the spec: `AttachmentRef` / `ChatPhoto` — an uploaded
attachment's durable reference (URL, name, size). The `ChatPhoto` type is
imported by `WebSocketService` from `ChatService`, which is not part of
the sources; the send pipeline treats its values as opaque. -/
structure ChatPhoto where
  url : String
  fileName : String
  sizeBytes : Nat
deriving DecidableEq

/-- Observable outcome of the `axios.get` existence check on
`/api/chat/room/\x7bchatRoomId\x7d`: success, a failure whose response
status is 404, or any other failure (timeout, 5xx, network error). -/
inductive CheckResult
  | ok
  | notFound
  | otherFailure
deriving DecidableEq

/-- Error classifications carried in the `code` field of dispatched error
events. -/
inductive ErrCode
  | CONNECTION_ERROR
  | CHAT_ROOM_DELETED
deriving DecidableEq

/-- An error event as handed to `notifyListeners('error', ...)`. -/
structure ErrEvent where
  code : ErrCode
  message : String
deriving DecidableEq

/-- The `messagePayload` object built by `sendMessageWithPhotos` and
published to `/app/chat.sendMessage`. -/
structure MessagePayload where
  chatRoomId : Int
  message : String
  senderType : String
  senderId : Option String
  photos : List ChatPhoto
deriving DecidableEq

/-- What a send call throws: the `Error('WebSocket is not connected')`
from the connection guard, or the rethrown axios 404 error. -/
inductive SendError
  | notConnected
  | roomDeleted404
deriving DecidableEq

/-- Observable outcome of one send call: error events dispatched to
listeners, the payload published over the client (if any), and the
returned/thrown result. -/
structure SendOutcome where
  events : List ErrEvent
  published : Option MessagePayload
  result : Except SendError MessagePayload
deriving DecidableEq

/-- The fixed photo-only placeholder body. -/
def photoPlaceholder : String := "사진을 보냈습니다."

/-- Message of the connection-guard error event. -/
def connErrMsg : String := "WebSocket 연결이 끊어졌습니다. 페이지를 새로고침해 주세요."

/-- Message of the deleted-room error event. -/
def roomDeletedMsg : String := "삭제된 채팅방입니다."

/-- Embeds `sendMessageWithPhotos(chatRoomId, content, senderType,
photos)`. `client` is `this.client` abstracted to `none` (null) or
`some connected`; `userId` is `this.userId`; `check` is the observable
outcome of the room-existence `axios.get`. Control flow follows the
source: guard `!this.client || !this.client.connected` first; then the
existence check, where only a 404 failure dispatches `CHAT_ROOM_DELETED`
and rethrows while any other failure is only logged; then the payload is
assembled with the JS body default `content || (photos.length > 0 ?
placeholder : '')` and published. -/
def sendMessageWithPhotos (client : Option Bool) (userId : Option String)
    (check : CheckResult) (chatRoomId : Int) (content : String)
    (senderType : String) (photos : List ChatPhoto) : SendOutcome :=
  match client with
  | some true =>
    match check with
    | .notFound =>
        { events := [⟨.CHAT_ROOM_DELETED, roomDeletedMsg⟩],
          published := none, result := .error .roomDeleted404 }
    | _ =>
        let payload : MessagePayload :=
          { chatRoomId := chatRoomId
            message :=
              if content = "" then
                (if photos.length > 0 then photoPlaceholder else "")
              else content
            senderType := senderType
            senderId := userId
            photos := photos }
        { events := [], published := some payload, result := .ok payload }
  | _ =>
      { events := [⟨.CONNECTION_ERROR, connErrMsg⟩],
        published := none, result := .error .notConnected }

/-- Embeds `sendMessage(chatRoomId, content, senderType)`: the source
delegates to `sendMessageWithPhotos` with an empty photo list. -/
def sendMessage (client : Option Bool) (userId : Option String)
    (check : CheckResult) (chatRoomId : Int) (content : String)
    (senderType : String) : SendOutcome :=
  sendMessageWithPhotos client userId check chatRoomId content senderType []

/-! ## Subscription & Dispatch Router (listener registry)

The registry `this.listeners` maps each event class to its own array; a
notification pass for one event class reads and removals mutate only that
class's array, so a single pass is modelled on one array. Callbacks are
identified by a numeric id; a listener's observable effect during its
invocation, as far as the registry is concerned, is the list of
`removeListener` calls it makes on this same event class (the behaviour
the claims are about). -/

/-- A registered callback: its identity and the ids it removes (via
`removeListener` on the same event class) when invoked. -/
structure Listener where
  id : Nat
  removes : List Nat
deriving DecidableEq

/-- Embeds `removeListener(event, callback)`: `indexOf` then `splice` of
one element — erase the first matching registration, no-op when absent. -/
def removeListener (ls : List Listener) (cb : Nat) : List Listener :=
  ls.eraseP fun l => l.id == cb

/-- All `removeListener` calls a listener makes during its invocation,
applied in order. -/
def applyRemovals (rs : List Nat) (ls : List Listener) : List Listener :=
  rs.foldl (fun acc r => removeListener acc r) ls

/-- One `listeners.forEach(listener => ...)` pass with ECMAScript
`forEach` semantics: the length is captured once at the start (`fuel`),
the index `k` walks from 0, and each step reads index `k` of the
*current* (possibly already mutated) array, skipping it when the array
has shrunk below `k+1` elements. Returns the invoked ids in invocation
order together with the final array. Exceptions thrown by a listener are
caught by the source's try/catch and do not affect the registry. -/
def notifyLoop : Nat → Nat → List Listener → List Nat × List Listener
  | 0, _, ls => ([], ls)
  | fuel + 1, k, ls =>
    match ls[k]? with
    | none => notifyLoop fuel (k + 1) ls
    | some l =>
        let out := notifyLoop fuel (k + 1) (applyRemovals l.removes ls)
        (l.id :: out.1, out.2)

/-- Embeds `notifyListeners(event, data)` for one event class: a
`forEach` pass over the current registration array. -/
def notifyListeners (ls : List Listener) : List Nat × List Listener :=
  notifyLoop ls.length 0 ls

/-! ## Session Connection Manager (WebSocketService.initialize / disconnect)

The service is modelled as the multiset of all STOMP clients it has ever
created (indexed by creation order) together with `this.client` as an
index into that list. A client is `connecting` from `activate()` until
the transport's connect acknowledgment, `connected` afterwards, and
`deactivated` once `deactivate()` ran; a deactivated client stops its
reconnect loop, while a non-deactivated one keeps the transport alive
(it is *live* and may still connect or deliver). -/

/-- Lifecycle phase of one created STOMP client. -/
inductive Phase
  | connecting
  | connected
  | deactivated
deriving DecidableEq

/-- Phase lookup on the client list; indices never created count as
`deactivated` (no resource exists). -/
def phL (cs : List Phase) (i : Nat) : Phase :=
  cs.getD i .deactivated

/-- Service state: every client created so far, the index `this.client`
points to (`none` = null), and `this.userId`. -/
structure SvcState where
  clients : List Phase
  cur : Option Nat
  userId : Option String
deriving DecidableEq

/-- Phase of client `i` in state `s`. -/
def phaseAt (s : SvcState) (i : Nat) : Phase :=
  phL s.clients i

/-- The state before any call: no client, null userId. -/
def initialState : SvcState := ⟨[], none, none⟩

/-- Client `i` is live: it was created and not deactivated, so its
transport/reconnect loop is still running. -/
def live (s : SvcState) (i : Nat) : Prop :=
  phaseAt s i ≠ .deactivated

instance (s : SvcState) (i : Nat) : Decidable (live s i) :=
  inferInstanceAs (Decidable (phaseAt s i ≠ .deactivated))

/-- Embeds `disconnect()`: if `this.client` is non-null, deactivate it
and null the reference. -/
def disconnectSvc (s : SvcState) : SvcState :=
  match s.cur with
  | some i => { s with clients := s.clients.set i .deactivated, cur := none }
  | none => s

/-- Embeds `initialize(userId)`: store the userId; if `this.client` is
non-null *and currently connected*, `disconnect()` it; then create and
activate a fresh client (phase `connecting`) and point `this.client` at
it. A non-null client that is not yet connected is replaced without
teardown. -/
def initializeSvc (s : SvcState) (uid : String) : SvcState :=
  let s1 : SvcState := { s with userId := some uid }
  let s2 :=
    match s1.cur with
    | some i => if phaseAt s1 i = Phase.connected then disconnectSvc s1 else s1
    | none => s1
  { s2 with clients := s2.clients ++ [Phase.connecting],
            cur := some s2.clients.length }

/-- The transport's connect acknowledgment reaching client `i`: a live
client (whose reconnect loop is still running) becomes `connected`; a
deactivated client never connects again. -/
def ackSvc (s : SvcState) (i : Nat) : SvcState :=
  if phaseAt s i = Phase.deactivated then s
  else { s with clients := s.clients.set i Phase.connected }

/-- Externally observable events driving the manager. -/
inductive SvcEvt
  | openEvt (uid : String)
  | ackEvt (i : Nat)
  | closeEvt
deriving DecidableEq

/-- One event step. -/
def svcStep (s : SvcState) : SvcEvt → SvcState
  | .openEvt uid => initializeSvc s uid
  | .ackEvt i => ackSvc s i
  | .closeEvt => disconnectSvc s

/-- Run an event trace from the initial state. -/
def svcRun (es : List SvcEvt) : SvcState :=
  es.foldl svcStep initialState

/-- An event is `good` in a state when it is not an `initialize` issued
while the current client exists but is not yet connected (the situation
the source fails to tear down). -/
def goodEvt (s : SvcState) : SvcEvt → Bool
  | .openEvt _ =>
      match s.cur with
      | none => true
      | some i => decide (phaseAt s i = Phase.connected)
  | _ => true

/-- Every event of the trace is good in the state where it fires. -/
def goodTrace : SvcState → List SvcEvt → Bool
  | _, [] => true
  | s, e :: es => goodEvt s e && goodTrace (svcStep s e) es

/-! ## Send Pipeline theorems -/

/-- With a live client, any existence-check outcome other than a 404
lets the call assemble and publish the payload, with the JS body
default applied. -/
theorem sendMessageWithPhotos_publishes (userId : Option String)
    (check : CheckResult) (chatRoomId : Int) (content senderType : String)
    (photos : List ChatPhoto) (hc : check ≠ CheckResult.notFound) :
    sendMessageWithPhotos (some true) userId check chatRoomId content senderType photos
      = { events := []
          published := some ⟨chatRoomId,
            (if content = "" then
              (if photos.length > 0 then photoPlaceholder else "") else content),
            senderType, userId, photos⟩
          result := .ok ⟨chatRoomId,
            (if content = "" then
              (if photos.length > 0 then photoPlaceholder else "") else content),
            senderType, userId, photos⟩ } := by
  cases check with
  | notFound => exact absurd rfl hc
  | ok => rfl
  | otherFailure => rfl

/-- Claim C3: with a live session, a 404 from the conversation-existence
check dispatches a `CHAT_ROOM_DELETED` error event, publishes nothing
and throws; any other check failure still publishes the message —
only a confirmed 404 blocks sending. -/
theorem c3_asymmetric_gating (userId : Option String) (chatRoomId : Int)
    (content senderType : String) (photos : List ChatPhoto) :
    ((sendMessageWithPhotos (some true) userId .notFound chatRoomId content senderType photos).events
        = [⟨.CHAT_ROOM_DELETED, roomDeletedMsg⟩]
      ∧ (sendMessageWithPhotos (some true) userId .notFound chatRoomId content senderType photos).published
        = none
      ∧ (sendMessageWithPhotos (some true) userId .notFound chatRoomId content senderType photos).result
        = .error .roomDeleted404)
    ∧ (∃ p,
        (sendMessageWithPhotos (some true) userId .otherFailure chatRoomId content senderType photos).published
          = some p
        ∧ (sendMessageWithPhotos (some true) userId .otherFailure chatRoomId content senderType photos).result
          = .ok p) :=
  ⟨⟨rfl, rfl, rfl⟩, ⟨_, rfl, rfl⟩⟩

/-- Claim C4: a send call with no live session (null client, or client
not connected) dispatches a `CONNECTION_ERROR` event to the error
listeners, throws, and never reaches the publish step. -/
theorem c4_connection_guard (client : Option Bool)
    (h : client = none ∨ client = some false) (userId : Option String)
    (check : CheckResult) (chatRoomId : Int) (content senderType : String)
    (photos : List ChatPhoto) :
    (sendMessageWithPhotos client userId check chatRoomId content senderType photos).events
        = [⟨.CONNECTION_ERROR, connErrMsg⟩]
    ∧ (sendMessageWithPhotos client userId check chatRoomId content senderType photos).published
        = none
    ∧ (sendMessageWithPhotos client userId check chatRoomId content senderType photos).result
        = .error .notConnected := by
  rcases h with h | h <;> subst h <;> exact ⟨rfl, rfl, rfl⟩

/-- Claim C4 witness at `client = none`. -/
theorem c4_connection_guard_witness :
    ((none : Option Bool) = none ∨ (none : Option Bool) = some false)
    ∧ ((sendMessageWithPhotos none (some "u1") .ok 7 "hi" "CUSTOMER" []).events
          = [⟨.CONNECTION_ERROR, connErrMsg⟩]
      ∧ (sendMessageWithPhotos none (some "u1") .ok 7 "hi" "CUSTOMER" []).published = none
      ∧ (sendMessageWithPhotos none (some "u1") .ok 7 "hi" "CUSTOMER" []).result
          = .error .notConnected) :=
  ⟨Or.inl rfl, c4_connection_guard none (Or.inl rfl) (some "u1") .ok 7 "hi" "CUSTOMER" []⟩

/-- Claim C6: at the assembly step (live session, check not a 404), an
empty body with attachments becomes the fixed photo placeholder, an
empty body without attachments is sent as an empty-body message rather
than rejected, and a non-empty body passes through unchanged. -/
theorem c6_body_defaulting (userId : Option String) (check : CheckResult)
    (chatRoomId : Int) (senderType content : String) (photos : List ChatPhoto)
    (hc : check ≠ CheckResult.notFound) :
    (photos ≠ [] →
        (sendMessageWithPhotos (some true) userId check chatRoomId "" senderType photos).published
          = some ⟨chatRoomId, photoPlaceholder, senderType, userId, photos⟩)
    ∧ ((sendMessageWithPhotos (some true) userId check chatRoomId "" senderType []).published
          = some ⟨chatRoomId, "", senderType, userId, []⟩
      ∧ (sendMessageWithPhotos (some true) userId check chatRoomId "" senderType []).result
          = .ok ⟨chatRoomId, "", senderType, userId, []⟩)
    ∧ (content ≠ "" →
        (sendMessageWithPhotos (some true) userId check chatRoomId content senderType photos).published
          = some ⟨chatRoomId, content, senderType, userId, photos⟩) := by
  refine ⟨?_, ?_, ?_⟩
  · intro hp
    rw [sendMessageWithPhotos_publishes userId check chatRoomId "" senderType photos hc]
    simp [List.length_pos.mpr hp]
  · rw [sendMessageWithPhotos_publishes userId check chatRoomId "" senderType [] hc]
    exact ⟨rfl, rfl⟩
  · intro hcontent
    rw [sendMessageWithPhotos_publishes userId check chatRoomId content senderType photos hc]
    simp [hcontent]

/-- Claim C6 witness: photo-only message gets the placeholder body. -/
theorem c6_body_defaulting_witness :
    CheckResult.ok ≠ CheckResult.notFound
    ∧ ([(⟨"url", "f.png", 3⟩ : ChatPhoto)] ≠ [])
    ∧ (sendMessageWithPhotos (some true) (some "u1") .ok 1 "" "CUSTOMER"
        [⟨"url", "f.png", 3⟩]).published
      = some ⟨1, photoPlaceholder, "CUSTOMER", some "u1", [⟨"url", "f.png", 3⟩]⟩ :=
  ⟨by decide, by decide,
    (c6_body_defaulting (some "u1") .ok 1 "CUSTOMER" "x" [⟨"url", "f.png", 3⟩]
      (by decide)).1 (by decide)⟩

/-- Claim C10: the text-only `sendMessage` behaves exactly like
`sendMessageWithPhotos` with an empty attachment list: same dispatched
error events, same publish, same returned or thrown result. -/
theorem c10_sendMessage_delegates (client : Option Bool) (userId : Option String)
    (check : CheckResult) (chatRoomId : Int) (content senderType : String) :
    (sendMessage client userId check chatRoomId content senderType).events
        = (sendMessageWithPhotos client userId check chatRoomId content senderType []).events
    ∧ (sendMessage client userId check chatRoomId content senderType).published
        = (sendMessageWithPhotos client userId check chatRoomId content senderType []).published
    ∧ (sendMessage client userId check chatRoomId content senderType).result
        = (sendMessageWithPhotos client userId check chatRoomId content senderType []).result :=
  ⟨rfl, rfl, rfl⟩

/-! ## Upload Adapter theorems -/

/-- A file within the size ceiling whose POST answers `fileUrl = v`
uploads successfully. -/
theorem uploadImage_ok (f : FileSpec) (v : String) (h : f.size ≤ MAX_FILE_SIZE) :
    uploadImage f (.ok v) = ⟨true, [], .ok ⟨v, f.name, f.size⟩⟩ := by
  unfold uploadImage
  rw [if_neg (by omega)]

/-- Claim C7: `uploadImage` fails with `FILE_TOO_LARGE` exactly when the
size strictly exceeds 10 MiB; an oversize file is rejected before the
POST, and a file of exactly 10 MiB passes the check and is uploaded. -/
theorem c7_size_ceiling (f : FileSpec) (bk : Except Unit String) (u : String) :
    ((uploadImage f bk).result = .error .fileTooLarge ↔ f.size > MAX_FILE_SIZE)
    ∧ (f.size > MAX_FILE_SIZE → (uploadImage f bk).posted = false)
    ∧ (f.size = MAX_FILE_SIZE →
        (uploadImage f bk).posted = true
        ∧ (uploadImage f (.ok u)).result = .ok ⟨u, f.name, f.size⟩) := by
  by_cases h : f.size > MAX_FILE_SIZE
  · refine ⟨⟨fun _ => h, fun _ => ?_⟩, fun _ => ?_, fun hs => absurd h (by omega)⟩
    · simp [uploadImage, h]
    · simp [uploadImage, h]
  · refine ⟨⟨fun he => ?_, fun hgt => absurd hgt h⟩, fun hgt => absurd hgt h, fun hs => ?_⟩
    · cases bk <;> simp [uploadImage, h] at he
    · constructor
      · cases bk <;> simp [uploadImage, h]
      · rw [uploadImage_ok f u (by omega)]

/-- Claim C7 witness at 10 MiB + 1 and exactly 10 MiB. -/
theorem c7_size_ceiling_witness :
    (MAX_FILE_SIZE + 1 > MAX_FILE_SIZE)
    ∧ (uploadImage ⟨"big.png", MAX_FILE_SIZE + 1⟩ (.ok "u")).posted = false
    ∧ ((uploadImage ⟨"ok.png", MAX_FILE_SIZE⟩ (.ok "u")).posted = true
      ∧ (uploadImage ⟨"ok.png", MAX_FILE_SIZE⟩ (.ok "u")).result
          = .ok ⟨"u", "ok.png", MAX_FILE_SIZE⟩) :=
  ⟨by omega,
    (c7_size_ceiling ⟨"big.png", MAX_FILE_SIZE + 1⟩ (.ok "u") "u").2.1 (by decide),
    (c7_size_ceiling ⟨"ok.png", MAX_FILE_SIZE⟩ (.ok "u") "u").2.2 rfl⟩

/-- Claim C5 counterexample: a `FILE_TOO_LARGE` rejection in
`uploadImage` fails the call but dispatches no classified error event to
any listener (the upload adapter has no listener channel at all), so the
dual-channel reporting the claim asserts does not hold there. -/
theorem c5_counterexample :
    (uploadImage ⟨"big.png", MAX_FILE_SIZE + 1⟩ (.ok "u")).result
        = .error .fileTooLarge
    ∧ (uploadImage ⟨"big.png", MAX_FILE_SIZE + 1⟩ (.ok "u")).events = [] := by
  constructor <;> decide

/-- Claim C5 (amended): validation failures of the Send Pipeline are
dual-channel — the call throws *and* a classified error event reaches
the listeners — but the upload adapter's `FILE_TOO_LARGE` rejection is
single-channel: the call rejects with no listener event. -/
theorem c5_dual_channel_amended (client : Option Bool)
    (hcl : client = none ∨ client = some false) (userId : Option String)
    (check : CheckResult) (chatRoomId : Int) (content senderType : String)
    (photos : List ChatPhoto) (f : FileSpec) (bk : Except Unit String)
    (hf : f.size > MAX_FILE_SIZE) :
    ((sendMessageWithPhotos client userId check chatRoomId content senderType photos).events ≠ []
      ∧ (sendMessageWithPhotos client userId check chatRoomId content senderType photos).result
          = .error .notConnected)
    ∧ ((sendMessageWithPhotos (some true) userId .notFound chatRoomId content senderType photos).events ≠ []
      ∧ (sendMessageWithPhotos (some true) userId .notFound chatRoomId content senderType photos).result
          = .error .roomDeleted404)
    ∧ ((uploadImage f bk).result = .error .fileTooLarge
      ∧ (uploadImage f bk).events = []) := by
  refine ⟨?_, ⟨by simp [sendMessageWithPhotos], rfl⟩, ?_⟩
  · rcases hcl with h | h <;> subst h <;> exact ⟨by simp [sendMessageWithPhotos], rfl⟩
  · constructor <;> simp [uploadImage, hf]

/-- Claim C5 amended witness at concrete inputs. -/
theorem c5_dual_channel_amended_witness :
    ((none : Option Bool) = none ∨ (none : Option Bool) = some false)
    ∧ (MAX_FILE_SIZE + 1 > MAX_FILE_SIZE)
    ∧ ((sendMessageWithPhotos none (some "u1") .ok 1 "hi" "CUSTOMER" []).events ≠ []
      ∧ (uploadImage ⟨"big.png", MAX_FILE_SIZE + 1⟩ (.ok "u")).events = []) :=
  ⟨Or.inl rfl, by omega,
    (c5_dual_channel_amended none (Or.inl rfl) (some "u1") .ok 1 "hi" "CUSTOMER" []
      ⟨"big.png", MAX_FILE_SIZE + 1⟩ (.ok "u") (by decide)).1.1,
    (c5_dual_channel_amended none (Or.inl rfl) (some "u1") .ok 1 "hi" "CUSTOMER" []
      ⟨"big.png", MAX_FILE_SIZE + 1⟩ (.ok "u") (by decide)).2.2.2⟩

/-- All-success per-file results pass the `Promise.all` success test. -/
theorem uploadMulti_all_aux (u : FileSpec → String) (l : List FileSpec) :
    ((l.map fun f => Except.ok (ε := UploadError) (⟨u f, f.name, f.size⟩ : UploadResult)).all
        fun r => r.toOption.isSome) = true := by
  induction l with
  | nil => rfl
  | cons a l ih => simp [Except.toOption, ih]

/-- Collecting all-success per-file results preserves the input order. -/
theorem uploadMulti_collect_aux (u : FileSpec → String) (l : List FileSpec) :
    (l.map fun f => Except.ok (ε := UploadError) (⟨u f, f.name, f.size⟩ : UploadResult)).filterMap
        Except.toOption
      = l.map fun f => (⟨u f, f.name, f.size⟩ : UploadResult) := by
  induction l with
  | nil => rfl
  | cons a l ih => simp [Except.toOption, ih]

/-- Claim C8: `uploadMultipleImages` is all-or-nothing and
order-preserving — when every per-file upload succeeds it fulfills with
the refs in input order, and when any one per-file upload fails the
whole call rejects with no ref sequence. -/
theorem c8_all_or_nothing (files : List FileSpec)
    (backend : FileSpec → Except Unit String) (u : FileSpec → String) :
    ((∀ f ∈ files, f.size ≤ MAX_FILE_SIZE ∧ backend f = .ok (u f)) →
        uploadMultipleImages files backend
          = some (files.map fun f => ⟨u f, f.name, f.size⟩))
    ∧ (∀ f ∈ files, (uploadImage f (backend f)).result.toOption.isSome = false →
        uploadMultipleImages files backend = none) := by
  constructor
  · intro h
    have hmap : (files.map fun f => (uploadImage f (backend f)).result)
        = files.map fun f => Except.ok ⟨u f, f.name, f.size⟩ := by
      apply List.map_congr_left
      intro f hf
      rcases h f hf with ⟨h1, h2⟩
      rw [h2, uploadImage_ok f (u f) h1]
    simp only [uploadMultipleImages, hmap]
    rw [uploadMulti_all_aux u files]
    simp [uploadMulti_collect_aux u files]
  · intro f hf hfail
    have hall : (files.map fun f2 => (uploadImage f2 (backend f2)).result).all
        (fun r => r.toOption.isSome) = false := by
      rw [List.all_eq_false]
      exact ⟨(uploadImage f (backend f)).result,
        List.mem_map_of_mem _ hf, by simp [hfail]⟩
    simp only [uploadMultipleImages, hall]
    rfl

/-- Claim C8 witness: two good files fulfill in order; a good file next
to an oversize one rejects the whole call. -/
theorem c8_all_or_nothing_witness :
    uploadMultipleImages [⟨"a.png", 5⟩, ⟨"b.png", 6⟩] (fun f => .ok f.name)
        = some [⟨"a.png", "a.png", 5⟩, ⟨"b.png", "b.png", 6⟩]
    ∧ uploadMultipleImages [⟨"a.png", 5⟩, ⟨"big.png", MAX_FILE_SIZE + 1⟩]
        (fun f => .ok f.name) = none :=
  ⟨(c8_all_or_nothing [⟨"a.png", 5⟩, ⟨"b.png", 6⟩] (fun f => .ok f.name)
      (fun f => f.name)).1 (by intro f hf; fin_cases hf <;> exact ⟨by decide, rfl⟩),
    (c8_all_or_nothing [⟨"a.png", 5⟩, ⟨"big.png", MAX_FILE_SIZE + 1⟩]
      (fun f => .ok f.name) (fun f => f.name)).2
      ⟨"big.png", MAX_FILE_SIZE + 1⟩ (by decide) (by decide)⟩

/-! ## Storage Backend theorems -/

/-- Claim C9: `deleteFolder` lists the keys under the namespace and,
only when that listing is non-empty, issues exactly one batch-delete
request carrying those keys; on an empty listing it issues no batch
call and leaves the bucket untouched. -/
theorem c9_deleteFolder_batches (store : List String) (pre : String) :
    (store.filter (fun k => keyUnder pre k) = [] →
        deleteFolder store pre = (none, store))
    ∧ (store.filter (fun k => keyUnder pre k) ≠ [] →
        (deleteFolder store pre).1
          = some (store.filter fun k => keyUnder pre k)) := by
  constructor
  · intro h
    simp [deleteFolder, h]
  · intro h
    have : (store.filter fun k => keyUnder pre k).isEmpty = false := by
      rw [Bool.eq_false_iff]
      intro he
      exact h (List.isEmpty_iff.mp he)
    simp [deleteFolder, this]

/-- Claim C9 witness: empty listing is a no-op; non-empty listing issues
the batch with the listed keys. -/
theorem c9_deleteFolder_batches_witness :
    (["chat/2/c"].filter (fun k => keyUnder "chat/1/" k) = [])
    ∧ deleteFolder ["chat/2/c"] "chat/1/" = (none, ["chat/2/c"])
    ∧ (deleteFolder ["chat/1/a", "chat/2/c"] "chat/1/").1 = some ["chat/1/a"] :=
  ⟨by decide,
    (c9_deleteFolder_batches ["chat/2/c"] "chat/1/").1 (by decide),
    by
      have h2 := (c9_deleteFolder_batches ["chat/1/a", "chat/2/c"] "chat/1/").2 (by decide)
      rw [h2]
      decide⟩

/-! ## Dispatch Router theorems -/

/-- `removeListener` only ever erases from the array. -/
theorem removeListener_sublist (ls : List Listener) (cb : Nat) :
    List.Sublist (removeListener ls cb) ls :=
  List.eraseP_sublist ls

/-- The removals a listener performs leave a sublist of the array. -/
theorem applyRemovals_sublist (rs : List Nat) (ls : List Listener) :
    List.Sublist (applyRemovals rs ls) ls := by
  induction rs generalizing ls with
  | nil => exact List.Sublist.refl ls
  | cons r rs ih => exact (ih (removeListener ls r)).trans (removeListener_sublist ls r)

/-- Every id invoked from index `k` on belongs to a listener present at
an index ≥ `k` of the array state at that point. -/
theorem notifyLoop_subset (fuel k : Nat) (ls : List Listener) :
    (notifyLoop fuel k ls).1 ⊆ (ls.drop k).map Listener.id := by
  induction fuel generalizing k ls with
  | zero =>
    simp [notifyLoop]
  | succ fuel ih =>
    cases hls : ls[k]? with
    | none =>
      simp only [notifyLoop, hls]
      intro a ha
      have h1 := ih (k + 1) ls ha
      exact ((List.drop_sublist_drop_left ls (Nat.le_succ k)).map Listener.id).subset h1
    | some l =>
      simp only [notifyLoop, hls]
      intro a ha
      obtain ⟨hk, hgl⟩ := List.getElem?_eq_some.mp hls
      have hdrop : ls.drop k = l :: ls.drop (k + 1) := by
        rw [List.drop_eq_getElem_cons hk, hgl]
      rcases List.mem_cons.mp ha with rfl | ha
      · rw [hdrop]
        exact List.mem_cons_self _ _
      · have h1 := ih (k + 1) (applyRemovals l.removes ls) ha
        have h2 : a ∈ (ls.drop (k + 1)).map Listener.id :=
          (((applyRemovals_sublist l.removes ls).drop (k + 1)).map Listener.id).subset h1
        rw [hdrop]
        exact List.mem_cons_of_mem _ h2

/-- In a duplicate-free list, the element at index `k` does not occur
past index `k`. -/
theorem nodup_not_mem_drop {xs : List Nat} {k : Nat} {a : Nat}
    (hnd : xs.Nodup) (hk : xs[k]? = some a) : a ∉ xs.drop (k + 1) := by
  have hmem : a ∈ xs.take (k + 1) := by
    apply List.getElem?_mem (n := k)
    rw [List.getElem?_take_of_lt (Nat.lt_succ_self k)]
    exact hk
  have hdisj : (xs.take (k + 1)).Disjoint (xs.drop (k + 1)) := by
    apply List.disjoint_of_nodup_append
    rw [List.take_append_drop]
    exact hnd
  exact hdisj hmem

/-- With pairwise-distinct listener ids, a `forEach` pass never invokes
the same listener twice: an invoked listener can only move to a lower
index afterwards, while the cursor only moves up. -/
theorem notifyLoop_nodup (fuel k : Nat) (ls : List Listener)
    (h : (ls.map Listener.id).Nodup) : (notifyLoop fuel k ls).1.Nodup := by
  induction fuel generalizing k ls with
  | zero =>
    simp [notifyLoop]
  | succ fuel ih =>
    cases hls : ls[k]? with
    | none =>
      simpa only [notifyLoop, hls] using ih (k + 1) ls h
    | some l =>
      simp only [notifyLoop, hls]
      have hsub : List.Sublist (applyRemovals l.removes ls) ls := applyRemovals_sublist l.removes ls
      have hnd2 : ((applyRemovals l.removes ls).map Listener.id).Nodup :=
        (hsub.map Listener.id).nodup h
      refine List.nodup_cons.mpr ⟨?_, ih (k + 1) _ hnd2⟩
      intro hmem
      have h1 := notifyLoop_subset fuel (k + 1) (applyRemovals l.removes ls) hmem
      have h2 : l.id ∈ (ls.drop (k + 1)).map Listener.id :=
        ((hsub.drop (k + 1)).map Listener.id).subset h1
      rw [List.map_drop] at h2
      have hk2 : (ls.map Listener.id)[k]? = some l.id := by
        rw [List.getElem?_map, hls]
        rfl
      exact nodup_not_mem_drop h hk2 h2

/-- Claim C1 counterexample: with listeners `0` (which removes itself
when invoked) and `1` registered for the same event class, the pass over
the live array invokes only listener `0`; listener `1`, still registered
for that event class throughout and after the pass, is skipped because
the self-removal shifted it into the already-visited index. So a
dispatch pass does not iterate over a stable snapshot. -/
theorem c1_snapshot_counterexample :
    ¬ (∀ l ∈ (notifyListeners [⟨0, [0]⟩, ⟨1, []⟩]).2,
        l.id ∈ (notifyListeners [⟨0, [0]⟩, ⟨1, []⟩]).1) := by
  decide

/-- Claim C1 (amended): dispatch iterates over the live array with the
length captured at pass start, not over a snapshot. Removing a listener
from within its own invocation still cannot make any listener fire twice
in that pass (with distinct callback identities the invoked sequence is
duplicate-free, and only originally registered listeners are invoked),
but such a removal shifts the remaining listeners down one index, so the
still-registered listener that follows the removed one is skipped in the
same pass. -/
theorem c1_live_iteration_amended (ls : List Listener)
    (h : (ls.map Listener.id).Nodup) :
    (notifyListeners ls).1.Nodup
    ∧ (notifyListeners ls).1 ⊆ ls.map Listener.id := by
  constructor
  · exact notifyLoop_nodup ls.length 0 ls h
  · have h1 := notifyLoop_subset ls.length 0 ls
    simpa using h1

/-- Claim C1 amended witness: the counterexample registry has distinct
ids; its pass invokes `[0]` — nobody twice — and `1` is skipped. -/
theorem c1_live_iteration_amended_witness :
    (notifyListeners [⟨0, [0]⟩, ⟨1, []⟩]).1.Nodup
    ∧ (notifyListeners [⟨0, [0]⟩, ⟨1, []⟩]).1
        ⊆ [(⟨0, [0]⟩ : Listener), ⟨1, []⟩].map Listener.id :=
  c1_live_iteration_amended [⟨0, [0]⟩, ⟨1, []⟩] (by decide)

/-! ## Session Connection Manager theorems -/

/-- Indices never created are `deactivated`. -/
theorem phL_oob {cs : List Phase} {i : Nat} (h : cs.length ≤ i) :
    phL cs i = .deactivated := by
  simp [phL, List.getD_eq_getElem?_getD, List.getElem?_eq_none h]

/-- Appending a fresh client does not change earlier phases. -/
theorem phL_append_lt {cs : List Phase} {p : Phase} {i : Nat} (h : i < cs.length) :
    phL (cs ++ [p]) i = phL cs i := by
  simp [phL, List.getD_eq_getElem?_getD, List.getElem?_append_left h]

/-- The freshly appended client has the appended phase. -/
theorem phL_append_self (cs : List Phase) (p : Phase) :
    phL (cs ++ [p]) cs.length = p := by
  simp [phL, List.getD_eq_getElem?_getD, List.getElem?_concat_length]

/-- Updating one client's phase does not change the others. -/
theorem phL_set_ne {cs : List Phase} {p : Phase} {i j : Nat} (h : i ≠ j) :
    phL (cs.set j p) i = phL cs i := by
  simp [phL, List.getD_eq_getElem?_getD, List.getElem?_set_ne (Ne.symm h)]

/-- Updating an existing client's phase takes effect. -/
theorem phL_set_self {cs : List Phase} {p : Phase} {j : Nat} (h : j < cs.length) :
    phL (cs.set j p) j = p := by
  simp [phL, List.getD_eq_getElem?_getD, List.getElem?_set_self h]

/-- The teardown-discipline invariant: every client the service ever
created, other than the one `this.client` currently points to, has been
deactivated. -/
def Inv (s : SvcState) : Prop :=
  ∀ i : Nat, s.cur ≠ some i → phaseAt s i = .deactivated

/-- Under the invariant, two live clients coincide. -/
theorem inv_at_most_one {s : SvcState} (h : Inv s) {i k : Nat}
    (hi : live s i) (hk : live s k) : i = k := by
  have h1 : s.cur = some i := by
    by_contra hc
    exact hi (h i hc)
  have h2 : s.cur = some k := by
    by_contra hc
    exact hk (h k hc)
  rw [h1] at h2
  exact Option.some.inj h2

/-- The initial state satisfies the invariant. -/
theorem inv_initial : Inv initialState := by
  intro i _
  rfl

/-- `initialize` with no current client appends a fresh one. -/
theorem initializeSvc_cur_none {s : SvcState} (uid : String) (h : s.cur = none) :
    initializeSvc s uid
      = ⟨s.clients ++ [Phase.connecting], some s.clients.length, some uid⟩ := by
  simp [initializeSvc, h]

/-- `initialize` with a connected current client deactivates it first. -/
theorem initializeSvc_cur_connected {s : SvcState} (uid : String) {j : Nat}
    (h : s.cur = some j) (hc : phaseAt s j = Phase.connected) :
    initializeSvc s uid
      = ⟨s.clients.set j .deactivated ++ [Phase.connecting],
          some s.clients.length, some uid⟩ := by
  have hc1 : phaseAt ⟨s.clients, some j, some uid⟩ j = Phase.connected := hc
  simp [initializeSvc, disconnectSvc, h, hc1]

/-- Good events preserve the teardown-discipline invariant. -/
theorem inv_step {s : SvcState} {e : SvcEvt} (hs : Inv s)
    (hg : goodEvt s e = true) : Inv (svcStep s e) := by
  cases e with
  | openEvt uid =>
    cases hcur : s.cur with
    | none =>
      rw [show svcStep s (.openEvt uid) = initializeSvc s uid from rfl,
        initializeSvc_cur_none uid hcur]
      intro i hi
      have hne : i ≠ s.clients.length := fun h2 => hi (by rw [h2])
      show phL (s.clients ++ [Phase.connecting]) i = .deactivated
      rcases Nat.lt_or_ge i s.clients.length with hlt | hge
      · rw [phL_append_lt hlt]
        exact hs i (by rw [hcur]; exact fun hcon => Option.noConfusion hcon)
      · have hgt : s.clients.length < i := Nat.lt_of_le_of_ne hge (Ne.symm hne)
        exact phL_oob (by simpa using hgt)
    | some j =>
      have hc : phaseAt s j = Phase.connected := by
        have hg2 := hg
        simp only [goodEvt, hcur] at hg2
        exact of_decide_eq_true hg2
      rw [show svcStep s (.openEvt uid) = initializeSvc s uid from rfl,
        initializeSvc_cur_connected uid hcur hc]
      intro i hi
      have hne : i ≠ s.clients.length := fun h2 => hi (by rw [h2])
      show phL (s.clients.set j .deactivated ++ [Phase.connecting]) i = .deactivated
      have hjlt : j < s.clients.length := by
        by_contra hj
        have h3 : phL s.clients j = Phase.deactivated := phL_oob (Nat.le_of_not_lt hj)
        rw [show phL s.clients j = phaseAt s j from rfl, hc] at h3
        exact Phase.noConfusion h3
      rcases Nat.lt_or_ge i s.clients.length with hlt | hge
      · rw [phL_append_lt (by simpa using hlt)]
        by_cases hij : i = j
        · subst hij
          exact phL_set_self hlt
        · rw [phL_set_ne hij]
          exact hs i (by rw [hcur]; exact fun hcon => hij (Option.some.inj hcon).symm)
      · have hgt : s.clients.length < i := Nat.lt_of_le_of_ne hge (Ne.symm hne)
        exact phL_oob (by simpa using hgt)
  | ackEvt i0 =>
    by_cases hd : phaseAt s i0 = Phase.deactivated
    · have hEq : svcStep s (.ackEvt i0) = s := by
        simp [svcStep, ackSvc, hd]
      rw [hEq]
      exact hs
    · have hcur : s.cur = some i0 := by
        by_contra hc
        exact hd (hs i0 hc)
      have hEq : svcStep s (.ackEvt i0)
          = ⟨s.clients.set i0 Phase.connected, s.cur, s.userId⟩ := by
        simp [svcStep, ackSvc, hd]
      rw [hEq]
      intro k hk
      have hki : k ≠ i0 := by
        intro h2
        subst h2
        exact hk (by rw [hcur])
      show phL (s.clients.set i0 Phase.connected) k = .deactivated
      rw [phL_set_ne hki]
      exact hs k (by rw [hcur]; exact fun hcon => hki (Option.some.inj hcon).symm)
  | closeEvt =>
    cases hcur : s.cur with
    | none =>
      have hEq : svcStep s .closeEvt = s := by
        simp [svcStep, disconnectSvc, hcur]
      rw [hEq]
      exact hs
    | some j =>
      have hEq : svcStep s .closeEvt
          = ⟨s.clients.set j Phase.deactivated, none, s.userId⟩ := by
        simp [svcStep, disconnectSvc, hcur]
      rw [hEq]
      intro k _
      show phL (s.clients.set j Phase.deactivated) k = .deactivated
      by_cases hkj : k = j
      · subst hkj
        by_cases hlen : k < s.clients.length
        · exact phL_set_self hlen
        · rw [List.set_eq_of_length_le (Nat.le_of_not_lt hlen)]
          exact phL_oob (Nat.le_of_not_lt hlen)
      · rw [phL_set_ne hkj]
        exact hs k (by rw [hcur]; exact fun hcon => hkj (Option.some.inj hcon).symm)

/-- Good traces preserve the invariant along the whole run. -/
theorem inv_run : ∀ (es : List SvcEvt) (s : SvcState), Inv s →
    goodTrace s es = true → Inv (es.foldl svcStep s) := by
  intro es
  induction es with
  | nil =>
    intro s hs _
    exact hs
  | cons e es ih =>
    intro s hs hg
    have h1 : goodEvt s e = true ∧ goodTrace (svcStep s e) es = true := by
      simpa [goodTrace, Bool.and_eq_true] using hg
    exact ih (svcStep s e) (inv_step hs h1.1) h1.2

/-- Claim C2 counterexample: two `initialize("u1")` calls with the first
client still connecting leave two live clients — the source tears the
old client down only when it is already connected, so a connecting (or
reconnecting) client is replaced without teardown and its transport and
reconnect loop stay alive. -/
theorem c2_single_session_counterexample :
    ¬ (∀ i k : Nat,
        live (svcRun [.openEvt "u1", .openEvt "u1"]) i →
        live (svcRun [.openEvt "u1", .openEvt "u1"]) k → i = k) := by
  intro h
  have h01 : (0 : Nat) = 1 := h 0 1 (by decide) (by decide)
  exact absurd h01 (by decide)

/-- Claim C2 (amended): `initialize` tears down the existing client only
when that client is currently connected. Along any trace in which every
`initialize` fires while the current client is absent or connected, at
most one live session exists at every instant; without that proviso two
live clients can coexist, as the counterexample shows. -/
theorem c2_teardown_amended (es : List SvcEvt)
    (h : goodTrace initialState es = true) :
    ∀ i k : Nat, live (svcRun es) i → live (svcRun es) k → i = k := by
  intro i k hi hk
  exact inv_at_most_one (inv_run es initialState inv_initial h) hi hk

/-- Claim C2 amended witness: open, connect ack, open again — a good
trace; afterwards only client 1 is live. -/
theorem c2_teardown_amended_witness :
    goodTrace initialState [.openEvt "u1", .ackEvt 0, .openEvt "u1"] = true
    ∧ live (svcRun [.openEvt "u1", .ackEvt 0, .openEvt "u1"]) 1
    ∧ (1 : Nat) = 1 :=
  ⟨by decide, by decide,
    c2_teardown_amended [.openEvt "u1", .ackEvt 0, .openEvt "u1"] (by decide) 1 1
      (by decide) (by decide)⟩

end IMJM
